import Mathlib

/-!
Shallow embedding of the configuration-normalization core of the
archinstall excerpt: `NetworkConfiguration.parse_arguments`, `json`,
`get`/`__getitem__` (src/archinstall/lib/models/network_configuration.py)
and the subvolume editing commit/delete logic
(src/archinstall/lib/user_interaction/subvolume_config.py).

Python dynamic values that occur in these code paths (strings, booleans,
lists of strings, `None`) are embedded as `PyVal`; Python dicts as
association lists with first-match lookup; Python truthiness as
`PyVal.truthy`.  Fatal paths (`exit(1)` after a log) and the
`AttributeError` raised by calling `.get` on a `str` are embedded as
error results.
-/

namespace ArchInstall

/-- A Python value as it occurs in the network/subvolume config paths:
`None`, a string, a boolean, or a list of strings. -/
inductive PyVal where
  | vnone : PyVal
  | str (s : String) : PyVal
  | bool (b : Bool) : PyVal
  | list (xs : List String) : PyVal
deriving DecidableEq, Repr

/-- Python truthiness for the embedded values: `None`, `""`, `False`
and `[]` are falsy, everything else truthy. -/
def PyVal.truthy : PyVal → Bool
  | PyVal.vnone => false
  | PyVal.str s => !s.isEmpty
  | PyVal.bool b => b
  | PyVal.list xs => !xs.isEmpty

/-- A Python dict with string keys, embedded as an association list
(first occurrence of a key wins, mirroring key uniqueness of dicts). -/
abbrev PyDict : Type := List (String × PyVal)

/-- `d[k]` as an `Option`: `some v` when the key is present (the stored
value may itself be Python `None`), `none` when absent. -/
def PyDict.find (d : PyDict) (k : String) : Option PyVal :=
  match d with
  | [] => Option.none
  | (k1, v1) :: rest => if k1 = k then Option.some v1 else PyDict.find rest k

/-- Python `dict.get(k, default)`: the stored value when the key is
present, the default otherwise. -/
def PyDict.get (d : PyDict) (k : String) (default : PyVal) : PyVal :=
  match PyDict.find d k with
  | Option.some v => v
  | Option.none => default

/-- Python `dict.get(k)` (default `None`). -/
def PyDict.getN (d : PyDict) (k : String) : PyVal :=
  PyDict.get d k PyVal.vnone

/-- Python `k in dict`: key presence, regardless of the stored value. -/
def PyDict.hasKey (d : PyDict) (k : String) : Bool :=
  (PyDict.find d k).isSome

/-- `NicType(str, Enum)` with values "iso", "nm", "manual". -/
inductive NicType where
  | ISO : NicType
  | NM : NicType
  | MANUAL : NicType
deriving DecidableEq, Repr

/-- The string value of each enum member. -/
def NicType.value : NicType → String
  | NicType.ISO => "iso"
  | NicType.NM => "nm"
  | NicType.MANUAL => "manual"

/-- The enum constructor call `NicType(x)`: succeeds exactly on the
three member values (case-sensitive string comparison; a `NicType`
member is itself equal to its string value since the enum derives from
`str`), raises `ValueError` (here `Option.none`) on anything else. -/
def nicTypeOfVal : PyVal → Option NicType
  | PyVal.str s =>
    if s = "iso" then Option.some NicType.ISO
    else if s = "nm" then Option.some NicType.NM
    else if s = "manual" then Option.some NicType.MANUAL
    else Option.none
  | _ => Option.none

/-- The dataclass `NetworkConfiguration`: `type` is a `NicType`; the
remaining fields hold dynamic values (default `None` for `iface`, `ip`,
`gateway`, `dns`) and `dhcp` defaults to `True`. -/
structure NetworkConfiguration where
  type : NicType
  iface : PyVal
  ip : PyVal
  dhcp : Bool
  gateway : PyVal
  dns : PyVal
deriving DecidableEq, Repr

/-- Constructor with the dataclass field defaults
(`iface=None, ip=None, dhcp=True, gateway=None, dns=None`). -/
def NetworkConfiguration.mkDefault (t : NicType) : NetworkConfiguration :=
  { type := t, iface := PyVal.vnone, ip := PyVal.vnone, dhcp := true,
    gateway := PyVal.vnone, dns := PyVal.vnone }

/-- The ways `parse_arguments` can fail: the `AttributeError` raised by
`config.get(...)` when `config` is a bare `str`; the fatal
unknown-nic-type diagnostic (records the offending value and the listed
legal values) followed by `exit(1)`; and the fatal
missing-required-address diagnostic followed by `exit(1)`. -/
inductive ParseError where
  | attributeError : ParseError
  | unknownType (offending : PyVal) (legal : List String) : ParseError
  | missingRequiredAddress : ParseError
deriving DecidableEq, Repr

/-- Outcome of `parse_arguments`: a configuration, Python `None`
(input not recognized), or an error/fatal exit. -/
inductive ParseResult where
  | ok (c : NetworkConfiguration) : ParseResult
  | noConfig : ParseResult
  | err (e : ParseError) : ParseResult
deriving DecidableEq, Repr

/-- The input to `parse_arguments`: a bare string or a dict. -/
inductive ConfigInput where
  | str (s : String) : ConfigInput
  | dict (d : PyDict) : ConfigInput
deriving DecidableEq, Repr

/-- The "old style definitions" branch of `parse_arguments`, reached
when the dict's `type` entry is absent or falsy (the `isinstance(config,
str)` test inside it is always false on this path, since a bare string
already failed at `config.get`): `NetworkManager` truthy → NM; `ip` key
present → manual static record; `nic` key present → manual DHCP record;
otherwise `None`. -/
def legacyResolve (d : PyDict) : ParseResult :=
  if (PyDict.getN d "NetworkManager").truthy then
    ParseResult.ok (NetworkConfiguration.mkDefault NicType.NM)
  else if PyDict.hasKey d "ip" then
    ParseResult.ok
      { type := NicType.MANUAL
        iface := PyDict.get d "nic" (PyVal.str "")
        ip := PyDict.getN d "ip"
        dhcp := false
        gateway := PyDict.get d "gateway" (PyVal.str "")
        dns := PyDict.get d "dns" (PyVal.list []) }
  else if PyDict.hasKey d "nic" then
    ParseResult.ok
      { NetworkConfiguration.mkDefault NicType.MANUAL with
        iface := PyDict.get d "nic" (PyVal.str ""), dhcp := true }
  else
    ParseResult.noConfig

/-- `NetworkConfiguration.parse_arguments`.  The very first statement,
`nic_type = config.get('type', None)`, raises `AttributeError` when
`config` is a bare `str` (Python strings have no `.get` method), so the
string case never reaches the `isinstance` branch below it.  For dicts:
a falsy `type` entry selects the legacy heuristics; otherwise the value
must construct a `NicType` (else fatal unknown-type); `manual` goes
through the DHCP/static resolution, any other valid type yields a bare
record. -/
def parse_arguments : ConfigInput → ParseResult
  | ConfigInput.str _ => ParseResult.err ParseError.attributeError
  | ConfigInput.dict d =>
    let nic_type := PyDict.getN d "type"
    if !nic_type.truthy then
      legacyResolve d
    else
      match nicTypeOfVal nic_type with
      | Option.none =>
        ParseResult.err (ParseError.unknownType nic_type ["iso", "nm", "manual"])
      | Option.some t =>
        if t = NicType.MANUAL then
          if (PyDict.get d "dhcp" (PyVal.bool false)).truthy
              || !((PyDict.getN d "ip").truthy
                    || (PyDict.getN d "gateway").truthy
                    || (PyDict.getN d "dns").truthy) then
            ParseResult.ok
              { NetworkConfiguration.mkDefault t with
                iface := PyDict.get d "iface" (PyVal.str "") }
          else
            let ip := PyDict.get d "ip" (PyVal.str "")
            if !ip.truthy then
              ParseResult.err ParseError.missingRequiredAddress
            else
              ParseResult.ok
                { type := t
                  iface := PyDict.get d "iface" (PyVal.str "")
                  ip := ip
                  dhcp := false
                  gateway := PyDict.get d "gateway" (PyVal.str "")
                  dns := PyDict.get d "dns" (PyVal.list []) }
        else
          ParseResult.ok (NetworkConfiguration.mkDefault t)

/-- `NetworkConfiguration.json`: `self.__dict__`, i.e. the fields as a
dict in declaration order.  The `type` entry holds the enum member,
which (being a `str` subclass) is equal to its string value. -/
def NetworkConfiguration.json (c : NetworkConfiguration) : PyDict :=
  [("type", PyVal.str c.type.value), ("iface", c.iface), ("ip", c.ip),
   ("dhcp", PyVal.bool c.dhcp), ("gateway", c.gateway), ("dns", c.dns)]

/-- A value returned by the string-keyed accessor `__getitem__`:
either the `NicType` member (for key "type") or one of the dynamic
field values. -/
inductive ItemVal where
  | nic (t : NicType) : ItemVal
  | val (v : PyVal) : ItemVal
deriving DecidableEq, Repr

/-- Outcome of `__getitem__` / `get`: a value, or the `KeyError`
raised for an unsupported key (recording that key). -/
inductive ItemResult where
  | ok (v : ItemVal) : ItemResult
  | keyError (k : String) : ItemResult
deriving DecidableEq, Repr

/-- `NetworkConfiguration.__getitem__`: returns the `type`, `iface`,
`gateway`, `dns` or `dhcp` field for those five keys and raises
`KeyError` for every other key (the `ip` field has no case). -/
def NetworkConfiguration.getitem (c : NetworkConfiguration) (key : String) : ItemResult :=
  if key = "type" then ItemResult.ok (ItemVal.nic c.type)
  else if key = "iface" then ItemResult.ok (ItemVal.val c.iface)
  else if key = "gateway" then ItemResult.ok (ItemVal.val c.gateway)
  else if key = "dns" then ItemResult.ok (ItemVal.val c.dns)
  else if key = "dhcp" then ItemResult.ok (ItemVal.val (PyVal.bool c.dhcp))
  else ItemResult.keyError key

/-- `NetworkConfiguration.get`: delegates to `__getitem__` (so a
`KeyError` propagates) and substitutes the default when the stored
result `is None`. -/
def NetworkConfiguration.get (c : NetworkConfiguration) (key : String)
    (default_value : ItemVal) : ItemResult :=
  match c.getitem key with
  | ItemResult.keyError k => ItemResult.keyError k
  | ItemResult.ok (ItemVal.val PyVal.vnone) => ItemResult.ok default_value
  | ItemResult.ok v => ItemResult.ok v

/-!
Subvolume editing (src/archinstall/lib/user_interaction/subvolume_config.py).
The collection `self.data` maps subvolume names to records; a record as
committed by `exit_callback` is a dict holding `mountpoint` and/or
`options` only when those scratch values are truthy.
-/

/-- The record committed for one subvolume: `Option.none` models the
key being absent from the committed dict. -/
structure SubvolRecord where
  mountpoint : Option String
  options : Option (List String)
deriving DecidableEq, Repr

/-- A subvolume collection: name → record, embedded like `PyDict`. -/
abbrev SubvolData : Type := List (String × SubvolRecord)

/-- First-match lookup on a subvolume collection. -/
def SubvolData.find (d : SubvolData) (k : String) : Option SubvolRecord :=
  match d with
  | [] => Option.none
  | (k1, v1) :: rest => if k1 = k then Option.some v1 else SubvolData.find rest k

/-- Python `dict.update({k: v})`: overwrite in place when the key
exists (position kept), append otherwise. -/
def SubvolData.update (d : SubvolData) (k : String) (v : SubvolRecord) : SubvolData :=
  match d with
  | [] => [(k, v)]
  | (k1, v1) :: rest =>
    if k1 = k then (k, v) :: rest
    else (k1, v1) :: SubvolData.update rest k v

/-- Python `del d[k]` where the key may be the `None` placeholder
(`origkey = None` when no row is targeted): removes the entry when the
key is a string present in the collection, raises `KeyError`
otherwise (`None` is never a key of the string-keyed collection). -/
def SubvolData.delitem (d : SubvolData) (k : Option String) :
    Except String SubvolData :=
  match k with
  | Option.none => Except.error "KeyError"
  | Option.some key =>
    if (SubvolData.find d key).isSome then
      Except.ok (d.eraseP (fun p => p.1 = key))
    else
      Except.error "KeyError"

/-- The Delete branch of `SubvolumeList.exec_action`: `origkey` is the
first key of `self.target` (or `None` when the target dict is empty),
and `del self.data[origkey]` runs unconditionally. -/
def exec_action_delete (data : SubvolData) (target : SubvolData) :
    Except String SubvolData :=
  let origkey : Option String :=
    match target with
    | [] => Option.none
    | (k, _) :: _ => Option.some k
  SubvolData.delitem data origkey

/-- The scratch data store `self.ds` of a `SubvolumeMenu` session:
each entry is `None` or the value entered in the prompts (`name` and
`mountpoint` are text inputs, `options` a multi-select list). -/
structure ScratchDS where
  name : Option String
  mountpoint : Option String
  options : Option (List String)
deriving DecidableEq, Repr

/-- Truthiness of an optional string (`None` and `""` are falsy). -/
def optStrTruthy : Option String → Bool
  | Option.none => false
  | Option.some s => !s.isEmpty

/-- Truthiness of an optional list (`None` and `[]` are falsy). -/
def optListTruthy : Option (List String) → Bool
  | Option.none => false
  | Option.some xs => !xs.isEmpty

/-- The value dict built by `exit_callback`: `mountpoint` / `options`
are included only when the scratch entries are truthy. -/
def scratchValue (ds : ScratchDS) : SubvolRecord :=
  { mountpoint := if optStrTruthy ds.mountpoint then ds.mountpoint else Option.none
    options := if optListTruthy ds.options then ds.options else Option.none }

/-- `SubvolumeMenu.exit_callback`: when the Cancel option was selected,
or the scratch `name` is falsy (absent or empty), the owning collection
is returned untouched; otherwise the scratch record is committed under
the name via `dict.update`. -/
def exit_callback (cancelSelected : Bool) (ds : ScratchDS) (data : SubvolData) :
    SubvolData :=
  if cancelSelected then data
  else
    match ds.name with
    | Option.none => data
    | Option.some n =>
      if n.isEmpty then data
      else SubvolData.update data n (scratchValue ds)

/-! Helper lemmas shared by the claim theorems. -/

/-- When the `type` key is absent, `config.get('type', None)` is `None`. -/
theorem getN_of_find_none (d : PyDict) (k : String)
    (h : PyDict.find d k = Option.none) : PyDict.getN d k = PyVal.vnone := by
  simp [PyDict.getN, PyDict.get, h]

/-- When the `type` key is present, `config.get('type', None)` is the stored value. -/
theorem getN_of_find_some (d : PyDict) (k : String) (v : PyVal)
    (h : PyDict.find d k = Option.some v) : PyDict.getN d k = v := by
  simp [PyDict.getN, PyDict.get, h]

/-- The legacy branch only ever returns a configuration or `None`,
never an error. -/
theorem legacyResolve_ne_err (d : PyDict) (e : ParseError) :
    legacyResolve d ≠ ParseResult.err e := by
  unfold legacyResolve
  split
  · simp
  · split
    · simp
    · split <;> simp

/-- A truthy value that is none of the three member strings fails the
`NicType` constructor. -/
theorem nicTypeOfVal_eq_none (v : PyVal)
    (h1 : v ≠ PyVal.str "iso") (h2 : v ≠ PyVal.str "nm")
    (h3 : v ≠ PyVal.str "manual") : nicTypeOfVal v = Option.none := by
  cases v with
  | str s =>
    have hs1 : s ≠ "iso" := fun hs => h1 (by rw [hs])
    have hs2 : s ≠ "nm" := fun hs => h2 (by rw [hs])
    have hs3 : s ≠ "manual" := fun hs => h3 (by rw [hs])
    simp [nicTypeOfVal, hs1, hs2, hs3]
  | vnone => rfl
  | bool b => rfl
  | list xs => rfl

/-- Committing under a key makes it present with the committed record. -/
theorem find_update_self (d : SubvolData) (k : String) (v : SubvolRecord) :
    SubvolData.find (SubvolData.update d k v) k = Option.some v := by
  induction d with
  | nil => simp [SubvolData.update, SubvolData.find]
  | cons p rest ih =>
    obtain ⟨k1, v1⟩ := p
    by_cases h : k1 = k
    · simp [SubvolData.update, SubvolData.find, h]
    · simp [SubvolData.update, SubvolData.find, h, ih]

/-- Committing under a key leaves every other key's binding unchanged. -/
theorem find_update_other (d : SubvolData) (k k2 : String) (v : SubvolRecord)
    (h : k2 ≠ k) :
    SubvolData.find (SubvolData.update d k v) k2 = SubvolData.find d k2 := by
  induction d with
  | nil => simp [SubvolData.update, SubvolData.find, Ne.symm h]
  | cons p rest ih =>
    obtain ⟨k1, v1⟩ := p
    by_cases h1 : k1 = k
    · subst h1
      simp [SubvolData.update, SubvolData.find, Ne.symm h]
    · by_cases h2 : k1 = k2 <;>
        simp [SubvolData.update, SubvolData.find, h1, h2, h, Ne.symm h, ih]

/-! Claim theorems. -/

/-- C1: the claim says every legacy bare-string input parses to a
`kind = ISO` configuration with no error raised first.  The code
instead raises `AttributeError` on every bare string: the very first
statement of `parse_arguments` calls `config.get('type', None)`, and
Python `str` has no `.get` method, so the `isinstance(config, str)`
branch that would return the ISO configuration is unreachable. -/
theorem parse_bare_string_raises (s : String) :
    parse_arguments (ConfigInput.str s) = ParseResult.err ParseError.attributeError := rfl

/-- C2: on a mapping with no `type` key, resolution follows the fixed
legacy priority order: truthy `NetworkManager` → NM (regardless of
other keys); else `ip` present → static manual record with the copied
fields; else `nic` present → DHCP manual record; else `None`. -/
theorem parse_legacy_priority (d : PyDict)
    (hty : PyDict.find d "type" = Option.none) :
    ((PyDict.getN d "NetworkManager").truthy = true →
        parse_arguments (ConfigInput.dict d) =
          ParseResult.ok (NetworkConfiguration.mkDefault NicType.NM))
  ∧ ((PyDict.getN d "NetworkManager").truthy = false →
      PyDict.hasKey d "ip" = true →
        parse_arguments (ConfigInput.dict d) =
          ParseResult.ok
            { type := NicType.MANUAL
              iface := PyDict.get d "nic" (PyVal.str "")
              ip := PyDict.getN d "ip"
              dhcp := false
              gateway := PyDict.get d "gateway" (PyVal.str "")
              dns := PyDict.get d "dns" (PyVal.list []) })
  ∧ ((PyDict.getN d "NetworkManager").truthy = false →
      PyDict.hasKey d "ip" = false → PyDict.hasKey d "nic" = true →
        parse_arguments (ConfigInput.dict d) =
          ParseResult.ok
            { NetworkConfiguration.mkDefault NicType.MANUAL with
              iface := PyDict.get d "nic" (PyVal.str ""), dhcp := true })
  ∧ ((PyDict.getN d "NetworkManager").truthy = false →
      PyDict.hasKey d "ip" = false → PyDict.hasKey d "nic" = false →
        parse_arguments (ConfigInput.dict d) = ParseResult.noConfig) := by
  have h0 : (PyDict.getN d "type").truthy = false := by
    rw [getN_of_find_none d "type" hty]
    rfl
  refine ⟨?_, ?_, ?_, ?_⟩
  · intro h1
    simp [parse_arguments, h0, legacyResolve, h1]
  · intro h1 h2
    simp [parse_arguments, h0, legacyResolve, h1, h2]
  · intro h1 h2 h3
    simp [parse_arguments, h0, legacyResolve, h1, h2, h3]
  · intro h1 h2 h3
    simp [parse_arguments, h0, legacyResolve, h1, h2, h3]

theorem parse_legacy_priority_witness :
    parse_arguments (ConfigInput.dict [("NetworkManager", PyVal.bool true)]) =
      ParseResult.ok (NetworkConfiguration.mkDefault NicType.NM) :=
  (parse_legacy_priority [("NetworkManager", PyVal.bool true)] (by decide)).1 (by decide)

/-- C3: with `type = "manual"`, a truthy `dhcp` — or no truthy value
among `ip`, `gateway`, `dns` — yields a manual record with
`dhcp = True` (the dataclass default) and `iface` from the `iface` key
(default empty string); no other field is populated. -/
theorem parse_manual_dhcp (d : PyDict)
    (hty : PyDict.find d "type" = Option.some (PyVal.str "manual"))
    (h : (PyDict.get d "dhcp" (PyVal.bool false)).truthy = true
       ∨ ((PyDict.getN d "ip").truthy = false
          ∧ (PyDict.getN d "gateway").truthy = false
          ∧ (PyDict.getN d "dns").truthy = false)) :
    parse_arguments (ConfigInput.dict d) =
      ParseResult.ok
        { NetworkConfiguration.mkDefault NicType.MANUAL with
          iface := PyDict.get d "iface" (PyVal.str "") } := by
  have h0 : PyDict.getN d "type" = PyVal.str "manual" :=
    getN_of_find_some d "type" (PyVal.str "manual") hty
  have htr : (PyDict.getN d "type").truthy = true := by rw [h0]; rfl
  have hmt : nicTypeOfVal (PyDict.getN d "type") = Option.some NicType.MANUAL := by
    rw [h0]; rfl
  rcases h with h1 | ⟨hip, hgw, hdns⟩
  · simp [parse_arguments, htr, hmt, h1]
  · simp [parse_arguments, htr, hmt, hip, hgw, hdns]

theorem parse_manual_dhcp_witness :
    parse_arguments (ConfigInput.dict
        [("type", PyVal.str "manual"), ("dhcp", PyVal.bool false)]) =
      ParseResult.ok
        { NetworkConfiguration.mkDefault NicType.MANUAL with
          iface := PyVal.str "" } :=
  parse_manual_dhcp [("type", PyVal.str "manual"), ("dhcp", PyVal.bool false)]
    (by decide) (Or.inr (by refine ⟨?_, ?_, ?_⟩ <;> decide))

/-- C4: with `type = "manual"`, `dhcp` falsy and a truthy `gateway` or
`dns`, an absent or empty `ip` is a fatal missing-address error; a
non-empty string `ip` yields the static manual record with the copied
fields. -/
theorem parse_manual_static (d : PyDict)
    (hty : PyDict.find d "type" = Option.some (PyVal.str "manual"))
    (hdhcp : (PyDict.get d "dhcp" (PyVal.bool false)).truthy = false)
    (hsig : (PyDict.getN d "gateway").truthy = true
          ∨ (PyDict.getN d "dns").truthy = true) :
    ((PyDict.find d "ip" = Option.none
        ∨ PyDict.find d "ip" = Option.some (PyVal.str "")) →
       parse_arguments (ConfigInput.dict d) =
         ParseResult.err ParseError.missingRequiredAddress)
  ∧ (∀ s : String, s ≠ "" → PyDict.find d "ip" = Option.some (PyVal.str s) →
       parse_arguments (ConfigInput.dict d) =
         ParseResult.ok
           { type := NicType.MANUAL
             iface := PyDict.get d "iface" (PyVal.str "")
             ip := PyVal.str s
             dhcp := false
             gateway := PyDict.get d "gateway" (PyVal.str "")
             dns := PyDict.get d "dns" (PyVal.list []) }) := by
  have h0 : PyDict.getN d "type" = PyVal.str "manual" :=
    getN_of_find_some d "type" (PyVal.str "manual") hty
  have htr : (PyDict.getN d "type").truthy = true := by rw [h0]; rfl
  have hmt : nicTypeOfVal (PyDict.getN d "type") = Option.some NicType.MANUAL := by
    rw [h0]; rfl
  have hany : ((PyDict.getN d "ip").truthy
      || (PyDict.getN d "gateway").truthy
      || (PyDict.getN d "dns").truthy) = true := by
    rcases hsig with h1 | h1 <;> simp [h1]
  constructor
  · intro hip
    have hip0 : (PyDict.get d "ip" (PyVal.str "")).truthy = false := by
      rcases hip with h1 | h1 <;> simp [PyDict.get, h1] <;> rfl
    simp [parse_arguments, htr, hmt, hdhcp, hany, hip0]
  · intro s hs hip
    have hip0 : PyDict.get d "ip" (PyVal.str "") = PyVal.str s := by
      simp [PyDict.get, hip]
    have hs0 : (PyDict.get d "ip" (PyVal.str "")).truthy = true := by
      rw [hip0]
      have he : s.isEmpty = false := by
        cases he : s.isEmpty
        · rfl
        · exact absurd ((String.isEmpty_iff s).mp he) hs
      simp [PyVal.truthy, he]
    have hs1 : (PyVal.str s).truthy = true := hip0 ▸ hs0
    simp [parse_arguments, htr, hmt, hdhcp, hany, hip0, hs0, hs1]

theorem parse_manual_static_witness :
    parse_arguments (ConfigInput.dict
        [("type", PyVal.str "manual"), ("gateway", PyVal.str "192.168.1.1")]) =
      ParseResult.err ParseError.missingRequiredAddress
  ∧ parse_arguments (ConfigInput.dict
        [("type", PyVal.str "manual"), ("iface", PyVal.str "eth0"),
         ("ip", PyVal.str "192.168.1.50/24"), ("gateway", PyVal.str "192.168.1.1"),
         ("dns", PyVal.list ["1.1.1.1"])]) =
      ParseResult.ok
        { type := NicType.MANUAL
          iface := PyVal.str "eth0"
          ip := PyVal.str "192.168.1.50/24"
          dhcp := false
          gateway := PyVal.str "192.168.1.1"
          dns := PyVal.list ["1.1.1.1"] } := by
  constructor
  · exact
      (parse_manual_static
          [("type", PyVal.str "manual"), ("gateway", PyVal.str "192.168.1.1")]
          (by decide) (by decide) (Or.inl (by decide))).1
        (Or.inl (by decide))
  · exact
      (parse_manual_static
          [("type", PyVal.str "manual"), ("iface", PyVal.str "eth0"),
           ("ip", PyVal.str "192.168.1.50/24"), ("gateway", PyVal.str "192.168.1.1"),
           ("dns", PyVal.list ["1.1.1.1"])]
          (by decide) (by decide) (Or.inl (by decide))).2
        "192.168.1.50/24" (by decide) (by decide)

/-- C5: a truthy `type` value that is not one of the member strings
"iso", "nm", "manual" is a fatal unknown-type error carrying the
offending value and the list of legal values; no record is returned. -/
theorem parse_unknown_type (d : PyDict) (v : PyVal)
    (hty : PyDict.find d "type" = Option.some v) (htr : v.truthy = true)
    (h1 : v ≠ PyVal.str "iso") (h2 : v ≠ PyVal.str "nm")
    (h3 : v ≠ PyVal.str "manual") :
    parse_arguments (ConfigInput.dict d) =
      ParseResult.err (ParseError.unknownType v ["iso", "nm", "manual"]) := by
  have h0 : PyDict.getN d "type" = v := getN_of_find_some d "type" v hty
  have hn : nicTypeOfVal v = Option.none := nicTypeOfVal_eq_none v h1 h2 h3
  simp [parse_arguments, h0, htr, hn]

theorem parse_unknown_type_witness :
    parse_arguments (ConfigInput.dict [("type", PyVal.str "Manual")]) =
      ParseResult.err
        (ParseError.unknownType (PyVal.str "Manual") ["iso", "nm", "manual"]) :=
  parse_unknown_type [("type", PyVal.str "Manual")] (PyVal.str "Manual")
    (by decide) (by decide) (by decide) (by decide) (by decide)

/-- C6: round-trip — a manual static record (`dhcp = False`) with
truthy `ip`, `gateway` and `dns` serialized by `json` and re-parsed by
`parse_arguments` is recovered exactly (the `iface` entry of the
serialized dict is present, so even a `None` interface survives). -/
theorem json_roundtrip (c : NetworkConfiguration)
    (ht : c.type = NicType.MANUAL) (hd : c.dhcp = false)
    (hip : c.ip.truthy = true) (hgw : c.gateway.truthy = true)
    (hdns : c.dns.truthy = true) :
    parse_arguments (ConfigInput.dict c.json) = ParseResult.ok c := by
  obtain ⟨t, iface, ip, dhcp, gateway, dns⟩ := c
  simp only at ht hd hip hgw hdns
  subst ht hd
  rw [show NetworkConfiguration.json
      { type := NicType.MANUAL, iface := iface, ip := ip, dhcp := false,
        gateway := gateway, dns := dns } =
      [("type", PyVal.str "manual"), ("iface", iface), ("ip", ip),
       ("dhcp", PyVal.bool false), ("gateway", gateway), ("dns", dns)] from rfl]
  have htr : (PyVal.str "manual").truthy = true := rfl
  have hfd : (PyVal.bool false).truthy = false := rfl
  have hmt : nicTypeOfVal (PyVal.str "manual") = Option.some NicType.MANUAL := rfl
  simp [parse_arguments, PyDict.getN, PyDict.get, PyDict.find,
    htr, hfd, hmt, hip, hgw, hdns]

theorem json_roundtrip_witness :
    parse_arguments (ConfigInput.dict
        (NetworkConfiguration.json
          { type := NicType.MANUAL, iface := PyVal.str "eth0",
            ip := PyVal.str "192.168.1.50/24", dhcp := false,
            gateway := PyVal.str "192.168.1.1",
            dns := PyVal.list ["1.1.1.1", "8.8.8.8"] })) =
      ParseResult.ok
        { type := NicType.MANUAL, iface := PyVal.str "eth0",
          ip := PyVal.str "192.168.1.50/24", dhcp := false,
          gateway := PyVal.str "192.168.1.1",
          dns := PyVal.list ["1.1.1.1", "8.8.8.8"] } :=
  json_roundtrip
    { type := NicType.MANUAL, iface := PyVal.str "eth0",
      ip := PyVal.str "192.168.1.50/24", dhcp := false,
      gateway := PyVal.str "192.168.1.1",
      dns := PyVal.list ["1.1.1.1", "8.8.8.8"] }
    rfl rfl (by decide) (by decide) (by decide)

/-- C9: the string-keyed accessors succeed exactly on the five keys
`type`, `iface`, `gateway`, `dns`, `dhcp` and raise `KeyError` on
every other key — in particular `ip` is unreadable — and `get`
substitutes the default exactly when the stored value is `None`. -/
theorem getitem_keys (c : NetworkConfiguration) (key : String) (dv : ItemVal) :
    (key ∉ (["type", "iface", "gateway", "dns", "dhcp"] : List String) →
        c.getitem key = ItemResult.keyError key
      ∧ c.get key dv = ItemResult.keyError key)
  ∧ (key ∈ (["type", "iface", "gateway", "dns", "dhcp"] : List String) →
        ∃ v, c.getitem key = ItemResult.ok v)
  ∧ c.getitem "ip" = ItemResult.keyError "ip"
  ∧ (c.getitem key = ItemResult.ok (ItemVal.val PyVal.vnone) →
        c.get key dv = ItemResult.ok dv) := by
  refine ⟨?_, ?_, ?_, ?_⟩
  · intro hk
    simp only [List.mem_cons, List.not_mem_nil, or_false, not_or] at hk
    obtain ⟨h1, h2, h3, h4, h5⟩ := hk
    constructor
    · simp [NetworkConfiguration.getitem, h1, h2, h3, h4, h5]
    · simp [NetworkConfiguration.get, NetworkConfiguration.getitem, h1, h2, h3, h4, h5]
  · intro hk
    simp only [List.mem_cons, List.not_mem_nil, or_false] at hk
    rcases hk with h | h | h | h | h <;> subst h <;> exact ⟨_, rfl⟩
  · rfl
  · intro h
    simp [NetworkConfiguration.get, h]

theorem getitem_keys_witness :
    (NetworkConfiguration.mkDefault NicType.MANUAL).getitem "ip" =
        ItemResult.keyError "ip"
  ∧ (NetworkConfiguration.mkDefault NicType.MANUAL).get "iface"
        (ItemVal.val (PyVal.str "default")) =
      ItemResult.ok (ItemVal.val (PyVal.str "default")) :=
  ⟨(getitem_keys (NetworkConfiguration.mkDefault NicType.MANUAL) "ip"
      (ItemVal.val (PyVal.str "default"))).2.2.1,
   (getitem_keys (NetworkConfiguration.mkDefault NicType.MANUAL) "iface"
      (ItemVal.val (PyVal.str "default"))).2.2.2 (by decide)⟩

/-- C10: a `type` key that is present but falsy (e.g. the empty
string) sends the input through the legacy heuristics and can never
produce the unknown-type error. -/
theorem parse_falsy_type (d : PyDict) (v : PyVal)
    (hty : PyDict.find d "type" = Option.some v) (hf : v.truthy = false) :
    parse_arguments (ConfigInput.dict d) = legacyResolve d
  ∧ ∀ w l, parse_arguments (ConfigInput.dict d) ≠
        ParseResult.err (ParseError.unknownType w l) := by
  have h0 : (PyDict.getN d "type").truthy = false := by
    rw [getN_of_find_some d "type" v hty]
    exact hf
  have heq : parse_arguments (ConfigInput.dict d) = legacyResolve d := by
    simp [parse_arguments, h0]
  refine ⟨heq, fun w l hcontra => ?_⟩
  rw [heq] at hcontra
  exact legacyResolve_ne_err d (ParseError.unknownType w l) hcontra

theorem parse_falsy_type_witness :
    parse_arguments (ConfigInput.dict
        [("type", PyVal.str ""), ("nic", PyVal.str "eth0")]) =
      legacyResolve [("type", PyVal.str ""), ("nic", PyVal.str "eth0")] :=
  (parse_falsy_type [("type", PyVal.str ""), ("nic", PyVal.str "eth0")]
      (PyVal.str "") (by decide) (by decide)).1

/-- C7 counterexample: deleting the key "x" from an empty subvolume
collection is not a no-op — `del self.data[origkey]` raises `KeyError`
for a key that is not present. -/
theorem delete_missing_key_counterexample :
    exec_action_delete []
        [("x", { mountpoint := Option.none, options := Option.none })] =
      Except.error "KeyError" := rfl

/-- C7 amended: performing the Delete action targeted at a key that is
not present in the collection raises `KeyError` (the collection is not
modified — no updated collection is produced); it is not a silent
no-op. -/
theorem delete_missing_key (data : SubvolData) (k : String) (v : SubvolRecord)
    (rest : SubvolData) (hmiss : SubvolData.find data k = Option.none) :
    exec_action_delete data ((k, v) :: rest) = Except.error "KeyError" := by
  simp [exec_action_delete, SubvolData.delitem, hmiss]

theorem delete_missing_key_witness :
    exec_action_delete
        [("root", { mountpoint := Option.some "/", options := Option.none })]
        [("home", { mountpoint := Option.none, options := Option.none })] =
      Except.error "KeyError" :=
  delete_missing_key
    [("root", { mountpoint := Option.some "/", options := Option.none })]
    "home" { mountpoint := Option.none, options := Option.none } [] (by decide)

/-- C8: `exit_callback` commits the scratch record iff Cancel was not
selected and the scratch name is truthy: on Cancel, or an absent or
empty name, the owning collection is returned exactly as it was; on
commit the name is bound to the scratch mountpoint/options record
(whatever their values — no further validation) and every other key's
binding is untouched. -/
theorem exit_callback_commit (cancelSelected : Bool) (ds : ScratchDS)
    (data : SubvolData) :
    ((cancelSelected = true ∨ ds.name = Option.none
        ∨ ds.name = Option.some "") →
      exit_callback cancelSelected ds data = data)
  ∧ (∀ n : String, n ≠ "" → ds.name = Option.some n → cancelSelected = false →
      SubvolData.find (exit_callback cancelSelected ds data) n =
          Option.some (scratchValue ds)
        ∧ ∀ k, k ≠ n →
            SubvolData.find (exit_callback cancelSelected ds data) k =
              SubvolData.find data k) := by
  constructor
  · intro h
    rcases h with h | h | h
    · simp [exit_callback, h]
    · cases cancelSelected <;> simp [exit_callback, h]
    · cases cancelSelected <;>
        simp [exit_callback, h, show "".isEmpty = true from rfl]
  · intro n hn hname hcancel
    subst hcancel
    have hne : n.isEmpty = false := by
      cases he : n.isEmpty
      · rfl
      · exact absurd ((String.isEmpty_iff n).mp he) hn
    constructor
    · simp [exit_callback, hname, hne, find_update_self]
    · intro k hk
      simp [exit_callback, hname, hne, find_update_other data n k (scratchValue ds) hk]

theorem exit_callback_commit_witness :
    exit_callback true
        { name := Option.some "root", mountpoint := Option.some "/",
          options := Option.none }
        [] = []
  ∧ SubvolData.find
        (exit_callback false
          { name := Option.some "root", mountpoint := Option.some "/",
            options := Option.none }
          []) "root" =
      Option.some { mountpoint := Option.some "/", options := Option.none } :=
  ⟨(exit_callback_commit true
      { name := Option.some "root", mountpoint := Option.some "/",
        options := Option.none } []).1 (Or.inl rfl),
   ((exit_callback_commit false
      { name := Option.some "root", mountpoint := Option.some "/",
        options := Option.none } []).2 "root" (by decide) rfl rfl).1⟩

end ArchInstall
